import Mathlib

/-!
Verification development for the HidraViz replay/live playback engine.

The definitions below are shallow embeddings of the Python sources:

* `parse_events`, `is_latest_tick`, `get_frame`, `get_latest_frame`,
  `get_first_frame`, `connect`, `load_from_file`
  — `HidraViz/simulation_controller.py` (class `SimulationController`);
* `hidraRequest` — `HidraViz/hidra_api_client/core.py`
  (`HidraApiClient._request`);
* the `MW` state machine — `HidraViz/main_window.py` (class `MainWindow`,
  playback-related slots);
* `processCommand` — `HidraViz/simulation_worker.py`
  (`SimulationWorker.run`).

Modelling conventions:

* JSON-like Python values are the inductive `JVal`; Python truthiness is
  `pyTruthy`, and Python `for x in v` iteration is `pyIter` (lists iterate
  elements, strings iterate one-character strings, dicts iterate keys,
  other scalars raise `TypeError`).
* The controller's `_data_store : Dict[str, Dict[int, ReplayFrame]]` is
  modelled by `Store`, an association list from experiment id to the list
  of tick keys of that experiment's frame map, in insertion order.  Every
  code path that stores a frame uses the frame's own `tick` as its key
  (`_capture_full_history`, `_capture_frame`, `load_from_file`), so a
  frame is represented by its tick.  Experiment ids are modelled as
  strings and tick keys as integers; replay files whose `experimentId` or
  `tick` fields hold other (hashable) JSON values would be inserted under
  non-string / non-integer dictionary keys in Python, which lies outside
  this store abstraction and is reported as `PyErr.unsupportedKey`.  No
  theorem below touches that region.
* Exceptions are `Except PyErr` / explicit outcome values; the remote API
  is an oracle (`ApiOracle`, `WEnv`) supplying each call's outcome, since
  the gateway surfaces every failure as `HidraApiException`
  (see `hidraRequest`).
-/

namespace Hidra

/-! ## JSON-like Python values -/

/-- JSON-like Python value, as produced by `json.loads` / `response.json()`. -/
inductive JVal where
  | null : JVal
  | bool (b : Bool) : JVal
  | num (n : Int) : JVal
  | str (s : String) : JVal
  | arr (xs : List JVal) : JVal
  | obj (fields : List (String × JVal)) : JVal
deriving Inhabited

/-- Python exception kinds raised by the modelled code paths. -/
inductive PyErr where
  | typeError : PyErr
  | attributeError : PyErr
  | unsupportedKey : PyErr
deriving DecidableEq, Repr, Inhabited

/-- Dictionary lookup: `d.get(k)` on a dict `d` (first binding wins;
the Python dicts in scope have unique keys). -/
def jLookup (fields : List (String × JVal)) (k : String) : Option JVal :=
  match fields with
  | [] => none
  | (k', v) :: rest => if k' = k then some v else jLookup rest k

/-- Dictionary lookup with default: `d.get(k, dflt)`. -/
def jGetD (fields : List (String × JVal)) (k : String) (dflt : JVal) : JVal :=
  match jLookup fields k with
  | some v => v
  | none => dflt

/-- Python truthiness of a JSON-like value (`if not v: ...`). -/
def pyTruthy : JVal → Bool
  | .null => false
  | .bool b => b
  | .num n => n != 0
  | .str s => s != ""
  | .arr xs => !xs.isEmpty
  | .obj fs => !fs.isEmpty

/-- Python iteration `for x in v`: lists yield their elements, strings
yield their characters as one-character strings, dicts yield their keys,
and other scalars raise `TypeError`. -/
def pyIter : JVal → Except PyErr (List JVal)
  | .arr xs => .ok xs
  | .str s => .ok (s.data.map (fun c => JVal.str (String.mk [c])))
  | .obj fs => .ok (fs.map (fun kv => JVal.str kv.1))
  | _ => .error .typeError

/-! ## Event normalization — `SimulationController._parse_events`

`json.loads` is external to the repository; it is the parameter `dec`,
with `dec s = none` meaning a `json.JSONDecodeError`. -/

/-- The record built for a string event that fails JSON decoding:
`{"$type": "InvalidEventFormat", "data": event}`. -/
def invalidEventRecord (s : String) : JVal :=
  .obj [("$type", .str "InvalidEventFormat"), ("data", .str s)]

/-- Normalization of one element of `events_to_process`: strings are
JSON-decoded (falling back to `invalidEventRecord`), dicts are kept as
is, anything else is dropped. -/
def normEvent (dec : String → Option JVal) : JVal → List JVal
  | .str s =>
      match dec s with
      | some v => [v]
      | none => [invalidEventRecord s]
  | .obj fs => [.obj fs]
  | _ => []

/-- Normalization folded over a list of raw events. -/
def normEvents (dec : String → Option JVal) (xs : List JVal) : List JVal :=
  xs.foldr (fun ev acc => normEvent dec ev ++ acc) []

/-- `SimulationController._parse_events(raw_events_data)`: accepts a
falsy value (empty result), a dict carrying `$values`, or a plain list;
iterates the selected value and normalizes each element. -/
def parse_events (dec : String → Option JVal) (raw : JVal) :
    Except PyErr (List JVal) :=
  if pyTruthy raw = false then .ok []
  else
    let toProcess : JVal :=
      match raw with
      | .obj fs =>
          match jLookup fs "$values" with
          | some v => v
          | none => .arr []
      | .arr xs => .arr xs
      | _ => .arr []
    match pyIter toProcess with
    | .error e => .error e
    | .ok evs => .ok (normEvents dec evs)

/-! ## The frame store -/

/-- Tick keys of one experiment's frame map, in insertion order. -/
abbrev TickMap := List Int

/-- `SimulationController._data_store`, keyed by experiment id. -/
abbrev Store := List (String × TickMap)

/-- `exp_id in self._data_store` / `self._data_store.get(exp_id)`. -/
def storeFind (st : Store) (e : String) : Option TickMap :=
  match st with
  | [] => none
  | (k, m) :: rest => if k = e then some m else storeFind rest e

/-- `self._data_store[exp_id] = m` (replace or append). -/
def storeSet (e : String) (m : TickMap) : Store → Store
  | [] => [(e, m)]
  | (k, m') :: rest =>
      if k = e then (e, m) :: rest else (k, m') :: storeSet e m rest

/-- `del self._data_store[exp_id]` (no-op when absent). -/
def storeDelete (e : String) : Store → Store
  | [] => []
  | (k, m') :: rest => if k = e then rest else (k, m') :: storeDelete e rest

/-- `self._data_store[exp_id][tick] = frame`: inserting an existing tick
overwrites in place, a new tick is appended (dict insertion order). -/
def tickInsert (t : Int) (m : TickMap) : TickMap :=
  if t ∈ m then m else m ++ [t]

/-- Store a frame for tick `t` of experiment `e`. -/
def storeInsertTick (e : String) (t : Int) (st : Store) : Store :=
  storeSet e (tickInsert t ((storeFind st e).getD [])) st

/-- The tick keys of experiment `e` (empty when the session is unknown). -/
def keysOf (st : Store) (e : String) : TickMap :=
  (storeFind st e).getD []

/-- `max(keys)` over a non-empty key list (callers guard emptiness just
as the Python code does before calling `max`). -/
def maxKey : TickMap → Int
  | [] => 0
  | t :: ts => ts.foldl max t

/-- `min(keys)` over a non-empty key list. -/
def minKey : TickMap → Int
  | [] => 0
  | t :: ts => ts.foldl min t

/-- `SimulationController.get_frame(exp_id, tick)`:
`self._data_store.get(exp_id, {}).get(tick)` (by the key/tick identity,
the returned frame is represented by its tick). -/
def get_frame (st : Store) (e : String) (t : Int) : Option Int :=
  match storeFind st e with
  | some m => if t ∈ m then some t else none
  | none => none

/-- `SimulationController.is_latest_tick(exp_id, tick)`: false when the
session is unknown or empty, else `tick >= max(keys)`. -/
def is_latest_tick (st : Store) (e : String) (t : Int) : Bool :=
  match storeFind st e with
  | none => false
  | some [] => false
  | some m => decide (maxKey m ≤ t)

/-- `SimulationController.get_latest_frame(exp_id)`: the frame at the
maximum tick key, `None` for an unknown or empty session. -/
def get_latest_frame (st : Store) (e : String) : Option Int :=
  match storeFind st e with
  | none => none
  | some [] => none
  | some m => some (maxKey m)

/-- `SimulationController.get_first_frame(exp_id)`: the frame at the
minimum tick key, `None` for an unknown or empty session. -/
def get_first_frame (st : Store) (e : String) : Option Int :=
  match storeFind st e with
  | none => none
  | some [] => none
  | some m => some (minKey m)

/-! ## `SimulationController.connect` -/

/-- Outcomes of the two remote calls made during `connect`:
`get_status` and `get_full_history` (a `none` history means the call
raised `HidraApiException`; a successful history is the list of ticks of
the returned raw frame records, stored under their own tick keys). -/
structure ApiOracle where
  statusOk : Bool
  history : Option (List Int)
deriving Repr

/-- Controller state: the frame store plus the `is_offline` flag. -/
structure CtrlState where
  store : Store
  isOffline : Bool
deriving Repr

/-- `SimulationController.connect(exp_id)`: first deletes any cached
frames for `exp_id`, then checks reachability via `get_status`; on
success creates an empty session, clears `is_offline`, and downloads the
full history (a failure inside the download is caught and reported as
`False`, leaving the session created so far). -/
def connect (o : ApiOracle) (e : String) (c : CtrlState) : Bool × CtrlState :=
  let st1 := storeDelete e c.store
  if o.statusOk then
    let st2 := storeSet e [] st1
    match o.history with
    | some hist =>
        (true, ⟨hist.foldl (fun s t => storeInsertTick e t s) st2, false⟩)
    | none => (false, ⟨st2, false⟩)
  else
    (false, ⟨st1, c.isOffline⟩)

/-! ## `SimulationController.load_from_file`

The input is the already-parsed file document (a failing `open` /
`json.load` raises before any store mutation, so that case is the
`none` document below). -/

/-- One step of the frame-loading loop of `load_from_file`: build a
`ReplayFrame` from each record of `frames` and store it under its tick.
A record that is not a dict raises `AttributeError` at
`frame_data.get`; a failing `_parse_events` propagates; either way the
frames stored so far remain in the store.  Returns the (possibly
partially filled) store together with the exception, if any. -/
def loadFrames (dec : String → Option JVal) (e : String) :
    List JVal → Store → Store × Option PyErr
  | [], st => (st, none)
  | f :: rest, st =>
      match f with
      | .obj gfs =>
          match jGetD gfs "tick" (.num 0) with
          | .num n =>
              match parse_events dec (jGetD gfs "events" (.arr [])) with
              | .ok _ => loadFrames dec e rest (storeInsertTick e n st)
              | .error err => (st, some err)
          | _ => (st, some .unsupportedKey)
      | _ => (st, some .attributeError)

/-- `SimulationController.load_from_file(filename)` applied to the
parsed document (`none` = the file could not be read or JSON-parsed,
which raises before touching the store).  Returns either the raised
exception or the Python return value (`none` = the `experimentId` hard
failure returning `None`, `some (exp_id, exp_name)` = success), plus
the resulting controller state.  Only after the `experimentId` check
does it clear the whole store and create the new session; the frame
loop then runs `loadFrames`, and `is_offline` is set only when the loop
finishes. -/
def load_from_file (dec : String → Option JVal) (c : CtrlState)
    (doc : Option JVal) : Except PyErr (Option (String × JVal)) × CtrlState :=
  match doc with
  | none => (.error .attributeError, c)
  | some d =>
      match d with
      | .obj fs =>
          match jGetD fs "metadata" (.obj []) with
          | .obj ms =>
              let expIdV := jGetD ms "experimentId" .null
              if pyTruthy expIdV = false then (.ok none, c)
              else
                match expIdV with
                | .str expId =>
                    let expName := jGetD ms "experimentName" (.str "loaded-replay")
                    let framesData := jGetD fs "frames" (.arr [])
                    let st0 : Store := [(expId, [])]
                    match pyIter framesData with
                    | .error err => (.error err, ⟨st0, c.isOffline⟩)
                    | .ok recs =>
                        match loadFrames dec expId recs st0 with
                        | (st1, some err) => (.error err, ⟨st1, c.isOffline⟩)
                        | (st1, none) => (.ok (some (expId, expName)), ⟨st1, true⟩)
                | _ => (.error .unsupportedKey, c)
          | _ => (.error .attributeError, c)
      | _ => (.error .attributeError, c)

/-! ## `HidraApiClient._request` -/

/-- The decoded body of an HTTP response: a JSON object (with the four
fields `_request` inspects, each `none` when the key is absent) or a
body that `response.json()` fails to decode.  Bodies decoding to
non-object JSON values are outside this model. -/
inductive RBody where
  | jsonObj (errorF messageF titleF detailF : Option String) : RBody
  | nonJson : RBody
deriving DecidableEq, Repr

/-- An HTTP response as `_request` observes it. -/
structure HttpResponse where
  respOk : Bool
  statusCode : Int
  text : String
  body : RBody
deriving DecidableEq, Repr

/-- The outcome of `self.session.request(...)`: a transport failure
(`requests.exceptions.RequestException`) or a response. -/
inductive ReqOutcome where
  | transportFail (msg : String) : ReqOutcome
  | response (r : HttpResponse) : ReqOutcome
deriving DecidableEq, Repr

/-- `HidraApiException(status_code, error_type, message)`. -/
structure ApiError where
  status_code : Int
  error_type : String
  message : String
deriving DecidableEq, Repr

/-- The `HidraApiException` built by the outer
`except requests.exceptions.RequestException` handler. -/
def connectionError (url detail : String) : ApiError :=
  ⟨503, "ConnectionError",
    "Failed to connect to the API at " ++ url ++ ": " ++ detail⟩

/-- Error-kind resolution of `_request`: `error_data.get("error")`,
falling back to `title` (ProblemDetails) and then `"UnknownError"`. -/
def resolveErrorType (errorF titleF : Option String) : String :=
  match errorF with
  | some v => v
  | none =>
      match titleF with
      | some tv => tv
      | none => "UnknownError"

/-- Message resolution of `_request`: `error_data.get("message")`,
falling back to `detail` (ProblemDetails) and then `response.text`. -/
def resolveMessage (messageF detailF : Option String) (text : String) : String :=
  match messageF with
  | some v => v
  | none =>
      match detailF with
      | some dv => dv
      | none => text

/-- `HidraApiClient._request(method, path)`.  A transport failure maps
to `connectionError`.  A non-OK response with a JSON object body raises
`HidraApiException` with the server's status and resolved kind/message.
A non-OK response with an undecodable body falls into
`response.raise_for_status()`, whose `HTTPError` is a
`RequestException` and is therefore re-raised by the outer handler as
`connectionError` — losing the server's status.  An OK response returns
`none` for 204 and the decoded body otherwise (an OK body that fails to
decode also surfaces as `connectionError`, since
`requests.exceptions.JSONDecodeError` is a `RequestException`). -/
def hidraRequest (url : String) (o : ReqOutcome) :
    Except ApiError (Option RBody) :=
  match o with
  | .transportFail msg => .error (connectionError url msg)
  | .response r =>
      if r.respOk = false then
        match r.body with
        | .jsonObj errorF messageF titleF detailF =>
            .error ⟨r.statusCode, resolveErrorType errorF titleF,
                    resolveMessage messageF detailF r.text⟩
        | .nonJson => .error (connectionError url "HTTPError")
      else if r.statusCode = 204 then .ok none
      else
        match r.body with
        | .jsonObj e m t d => .ok (some (.jsonObj e m t d))
        | .nonJson => .error (connectionError url "JSONDecodeError")

/-! ## `MainWindow` — playback state machine

Playback-relevant fields of the `MainWindow` instance.  `lastResolved`
is a history variable recording the session and tick of the most recent
successful `_display_frame` call (the code has no such field; it is
observational bookkeeping only and influences no transition). -/

structure MW where
  selectedExpId : Option String
  currentDisplayTick : Int
  isPlaying : Bool
  targetTick : Option Int
  isOfflineMode : Bool
  lastResolved : Option (String × Int)
deriving DecidableEq, Repr

/-- Commands the playback slots enqueue on `command_queue` (restricted
to the kinds the spec's playback claims mention). -/
inductive Cmd where
  | atomicStep (e : String) : Cmd
  | refreshHistory (e : String) : Cmd
  | executeRun (e : String) : Cmd
  | getLiveStatus (e : String) : Cmd
deriving DecidableEq, Repr

/-- Result of an enqueued `ATOMIC_STEP`, as delivered back to the
window: `ok t` means `step_with_inputs` succeeded and the captured
frame's tick (the server's `currentTick`) is `t`; `fail` means it
returned `None` and the worker emitted `step_failed`. -/
inductive StepOutcome where
  | ok (newTick : Int) : StepOutcome
  | fail : StepOutcome
deriving DecidableEq, Repr

/-- `MainWindow._display_frame(frame)` for a frame of session `e` with
tick `t`: records the displayed tick (plus the `lastResolved` history
variable). -/
def displayFrame (e : String) (t : Int) (m : MW) : MW :=
  { m with currentDisplayTick := t, lastResolved := some (e, t) }

/-- `MainWindow._set_and_display_tick(tick)`: looks the frame up in the
store and displays it only when present. -/
def setAndDisplayTick (st : Store) (t : Int) (m : MW) : MW :=
  match m.selectedExpId with
  | some e =>
      match get_frame st e t with
      | some t' => displayFrame e t' m
      | none => m
  | none => m

/-- `on_play_pause_toggled(False)` (via `setChecked(False)`): clears
`is_playing` and stops the timer. -/
def pauseViaToggle (m : MW) : MW :=
  { m with isPlaying := false }

/-- `MainWindow._execute_step_forward()`.  When the session is live and
the displayed tick is the latest cached one, an `ATOMIC_STEP` command
is enqueued; its result either inserts the captured frame into the
store and displays it (`new_frame_data` → `_display_frame`) or emits
`step_failed`, which is connected to no slot, leaving the window state
untouched.  Otherwise the window merely tries to display the next
cached tick. -/
def executeStepForward (so : StepOutcome) (st : Store) (m : MW) :
    Store × MW × List Cmd :=
  match m.selectedExpId with
  | none => (st, m, [])
  | some e =>
      if !m.isOfflineMode && is_latest_tick st e m.currentDisplayTick then
        match so with
        | .ok t' => (storeInsertTick e t' st, displayFrame e t' m, [.atomicStep e])
        | .fail => (st, m, [.atomicStep e])
      else
        (st, setAndDisplayTick st (m.currentDisplayTick + 1) m, [])

/-- `MainWindow._on_playback_tick()` (the auto-play timer handler). -/
def onPlaybackTick (so : StepOutcome) (st : Store) (m : MW) :
    Store × MW × List Cmd :=
  if m.isPlaying = false then (st, m, [])
  else
    match m.targetTick with
    | some tgt =>
        if tgt ≤ m.currentDisplayTick then
          (st, { pauseViaToggle m with targetTick := none }, [])
        else executeStepForward so st m
    | none => executeStepForward so st m

/-- `MainWindow.on_play_pause_toggled(is_checked)`: checking starts the
timer and immediately runs one `_on_playback_tick`. -/
def onPlayPauseToggled (checked : Bool) (so : StepOutcome) (st : Store)
    (m : MW) : Store × MW × List Cmd :=
  if checked then onPlaybackTick so st { m with isPlaying := true }
  else (st, { m with isPlaying := false }, [])

/-- `MainWindow.stop_playback()`: pause, clear the target tick, and
reset the display to the earliest cached frame when one exists. -/
def stopPlayback (st : Store) (m : MW) : MW :=
  let m1 := if m.isPlaying then pauseViaToggle m else m
  let m2 := { m1 with targetTick := none }
  match m2.selectedExpId with
  | some e =>
      match get_first_frame st e with
      | some t => setAndDisplayTick st t m2
      | none => m2
  | none => m2

/-- `MainWindow.jump_to_tick()` with spin-box value `t`. -/
def jumpToTick (t : Int) (st : Store) (m : MW) : MW :=
  let m1 := if m.isPlaying then pauseViaToggle m else m
  setAndDisplayTick st t m1

/-- `MainWindow.step_backward()`. -/
def stepBackward (st : Store) (m : MW) : MW :=
  let m1 := if m.isPlaying then pauseViaToggle m else m
  match m1.selectedExpId with
  | some _ => setAndDisplayTick st (m1.currentDisplayTick - 1) m1
  | none => m1

/-- `MainWindow.step_forward()`. -/
def stepForward (so : StepOutcome) (st : Store) (m : MW) :
    Store × MW × List Cmd :=
  let m1 := if m.isPlaying then pauseViaToggle m else m
  executeStepForward so st m1

/-- `MainWindow.on_experiment_selected(exp_id)`: record the selection
and display the first (offline) or latest (live) cached frame, when one
exists. -/
def onExperimentSelected (e : String) (st : Store) (m : MW) : MW :=
  let m1 := { m with selectedExpId := some e }
  if m1.isOfflineMode then
    match get_first_frame st e with
    | some t => displayFrame e t m1
    | none => m1
  else
    match get_latest_frame st e with
    | some t => displayFrame e t m1
    | none => m1

/-- `MainWindow.select_experiment` for session `e` (completed through
the worker round-trip in live mode): a re-selection of the current
session returns immediately; otherwise auto-play is paused, and in live
mode the worker runs `SimulationController.connect` (re-downloading the
history per the oracle `o`) before `experiment_selected` triggers
`on_experiment_selected`; a failed connect only logs an error. -/
def selectExperiment (e : String) (o : ApiOracle) (st : Store) (m : MW) :
    Store × MW :=
  if m.selectedExpId = some e then (st, m)
  else
    let m1 := if m.isPlaying then pauseViaToggle m else m
    if m1.isOfflineMode then (st, onExperimentSelected e st m1)
    else
      match connect o e ⟨st, false⟩ with
      | (true, c') => (c'.store, onExperimentSelected e c'.store m1)
      | (false, c') => (c'.store, m1)

/-- `MainWindow.play_until_specified()` with spin-box value `target`. -/
def playUntilSpecified (target : Int) (so : StepOutcome) (st : Store)
    (m : MW) : Store × MW × List Cmd :=
  if m.currentDisplayTick < target then
    let m1 := { m with targetTick := some target }
    if m1.isPlaying = false then onPlayPauseToggled true so st m1
    else (st, m1, [])
  else (st, m, [])

/-- One completed playback transition (claim C1's alphabet: select,
timer fire, jump, step forward, step backward, stop, plus the play
toggle and play-until entry points that start the timer). -/
inductive POp where
  | select (e : String) (o : ApiOracle) : POp
  | playToggle (checked : Bool) (so : StepOutcome) : POp
  | timerFire (so : StepOutcome) : POp
  | jump (t : Int) : POp
  | stepFwd (so : StepOutcome) : POp
  | stepBack : POp
  | stopPb : POp
  | playUntil (target : Int) (so : StepOutcome) : POp

/-- Apply one completed transition to the store and window state. -/
def applyOp (p : Store × MW) : POp → Store × MW
  | .select e o => selectExperiment e o p.1 p.2
  | .playToggle checked so =>
      let r := onPlayPauseToggled checked so p.1 p.2; (r.1, r.2.1)
  | .timerFire so => let r := onPlaybackTick so p.1 p.2; (r.1, r.2.1)
  | .jump t => (p.1, jumpToTick t p.1 p.2)
  | .stepFwd so => let r := stepForward so p.1 p.2; (r.1, r.2.1)
  | .stepBack => (p.1, stepBackward p.1 p.2)
  | .stopPb => (p.1, stopPlayback p.1 p.2)
  | .playUntil target so =>
      let r := playUntilSpecified target so p.1 p.2; (r.1, r.2.1)

/-- Run a sequence of completed playback transitions. -/
def runOps (p : Store × MW) : List POp → Store × MW
  | [] => p
  | op :: rest => runOps (applyOp p op) rest

/-- The window state right after `MainWindow.__init__` (before any
session exists). -/
def initialMW : MW :=
  { selectedExpId := none, currentDisplayTick := 0, isPlaying := false,
    targetTick := none, isOfflineMode := false, lastResolved := none }

/-- The worker signals that `MainWindow.__init__` connects to slots
(`main_window.py`, the `self.worker.signals.*.connect(...)` block). -/
def connectedWorkerSignals : List String :=
  ["status_update", "logs_updated", "connection_result", "replay_loaded",
   "replay_saved", "assembly_result", "decompilation_result",
   "live_status_update", "new_frame_data", "experiment_list",
   "experiment_created", "experiment_deleted", "experiment_selected"]

/-! ## `SimulationWorker.run` — one command dispatch

Each dequeued command is dispatched by the `if/elif` chain of
`SimulationWorker.run`.  `WEv` are the `WorkerSignals` emissions; each
emission is paired with a Bool marking whether it is the branch's
terminal result event (the designated success/failure report of the
command) as opposed to an auxiliary notification (`logs_updated`, the
initial-log-level notices of `SELECT_EXPERIMENT`, the informational
`status_update` preceding `run_execution_result`, the trailing
`status_update` after a failed run creation, and the progress notices
preceding the experiment-list refresh of `RENAME_EXPERIMENT` /
`EVO_LOAD_GEN`). -/

/-- A `WorkerSignals` emission. -/
inductive WEv where
  | connectionResult (ok : Bool) : WEv
  | replayLoaded : WEv
  | replaySaved : WEv
  | assemblyResult (ok : Bool) : WEv
  | decompilationResult (ok : Bool) : WEv
  | liveStatusUpdate : WEv
  | experimentList : WEv
  | experimentChildren : WEv
  | experimentCreated : WEv
  | experimentDeleted : WEv
  | experimentSelected : WEv
  | newFrameData : WEv
  | logsUpdated : WEv
  | stepFailed : WEv
  | historyRefreshed : WEv
  | runExecutionResult (ok : Bool) : WEv
  | statusUpdate (level : String) : WEv
deriving DecidableEq, Repr

/-- The command kinds dispatched by `SimulationWorker.run`, plus
`SET_LOG_LEVEL`, which `MainWindow.on_log_level_changed` enqueues but
no worker branch handles. -/
inductive WCmd where
  | stop | connect | loadFile | refreshExperiments | fetchExpChildren
  | createExperiment | cloneExperiment | deleteExperiment
  | renameExperiment | saveReplay | selectExperiment | refreshHistory
  | atomicStep | executeRun | assembleHgl | decompileHgl
  | evoStart | evoStop | getEvoStatus | evoLoadGen | evoExportCsv
  | setLogLevel : WCmd
  | getLiveStatus (hasExpId : Bool) : WCmd
deriving DecidableEq, Repr

/-- Outcome of `load_from_file` inside the `LOAD_FILE` branch. -/
inductive LoadR where
  | ok | invalid | exc : LoadR
deriving DecidableEq, Repr

/-- Oracle for the outcome of each remote/file interaction a branch may
perform.  Remote calls surface failures only as `HidraApiException`
(see `hidraRequest`), so a Bool per call suffices. -/
structure WEnv where
  connectOk : Bool
  loadR : LoadR
  listOk : Bool
  childrenOk : Bool
  createOk : Bool
  cloneOk : Bool
  deleteOk : Bool
  renameOk : Bool
  listAfterRenameOk : Bool
  saveOk : Bool
  ctrlConnectOk : Bool
  setLevelOk : Bool
  stepOk : Bool
  getLogsOk : Bool
  runOk : Bool
  assembleOk : Bool
  decompileOk : Bool
  evoStartOk : Bool
  evoStopOk : Bool
  evoStatusOk : Bool
  evoLoadGenOk : Bool
  listAfterLoadGenOk : Bool
  evoExportOk : Bool
  statusOk : Bool
deriving Repr

/-- Worker-side state the dispatch consults: whether `self.controller`
exists, its `is_offline` flag, whether `self._initial_log_level` is
still a truthy value, and the loop flag. -/
structure WState where
  hasController : Bool
  ctrlOffline : Bool
  hasInitialLogLevel : Bool
  running : Bool
deriving DecidableEq, Repr

/-- `SimulationWorker.run` processing of one dequeued command: the
resulting worker state and the emitted signals, each tagged with
whether it is the branch's terminal result event. -/
def processCommand (env : WEnv) (ws : WState) :
    WCmd → WState × List (WEv × Bool)
  | .stop => ({ ws with running := false }, [])
  | .connect =>
      if env.connectOk then
        ({ ws with hasController := true, ctrlOffline := false,
                   hasInitialLogLevel := true },
         [(.connectionResult true, true)])
      else (ws, [(.connectionResult false, true)])
  | .loadFile =>
      -- a fresh controller is installed before the load is attempted
      let ws1 := { ws with hasController := true, ctrlOffline := false }
      match env.loadR with
      | .ok => ({ ws1 with ctrlOffline := true }, [(.replayLoaded, true)])
      | .invalid => (ws1, [(.statusUpdate "error", true)])
      | .exc => (ws1, [(.statusUpdate "error", true)])
  | .refreshExperiments =>
      if !ws.hasController || ws.ctrlOffline then (ws, [])
      else if env.listOk then (ws, [(.experimentList, true)])
      else (ws, [(.statusUpdate "error", true)])
  | .fetchExpChildren =>
      if !ws.hasController || ws.ctrlOffline then (ws, [])
      else if env.childrenOk then (ws, [(.experimentChildren, true)])
      else (ws, [(.statusUpdate "error", true)])
  | .createExperiment =>
      if !ws.hasController || ws.ctrlOffline then (ws, [])
      else if env.createOk then (ws, [(.experimentCreated, true)])
      else (ws, [(.statusUpdate "error", true)])
  | .cloneExperiment =>
      if !ws.hasController || ws.ctrlOffline then (ws, [])
      else if env.cloneOk then (ws, [(.experimentCreated, true)])
      else (ws, [(.statusUpdate "error", true)])
  | .deleteExperiment =>
      if !ws.hasController || ws.ctrlOffline then (ws, [])
      else if env.deleteOk then (ws, [(.experimentDeleted, true)])
      else (ws, [(.statusUpdate "error", true)])
  | .renameExperiment =>
      if !ws.hasController || ws.ctrlOffline then (ws, [])
      else if env.renameOk then
        if env.listAfterRenameOk then
          (ws, [(.statusUpdate "success", false), (.experimentList, true)])
        else
          (ws, [(.statusUpdate "success", false), (.statusUpdate "error", true)])
      else (ws, [(.statusUpdate "error", true)])
  | .saveReplay =>
      if !ws.hasController then (ws, [])
      else if env.saveOk then (ws, [(.replaySaved, true)])
      else (ws, [(.statusUpdate "error", true)])
  | .selectExperiment =>
      -- `if self.controller and self.controller.connect(...)`
      if ws.hasController && env.ctrlConnectOk then
        let lvlEvs : List (WEv × Bool) :=
          if ws.hasInitialLogLevel then
            if env.setLevelOk then [(.statusUpdate "info", false)]
            else [(.statusUpdate "error", false)]
          else []
        ({ ws with ctrlOffline := false,
                   hasInitialLogLevel :=
                     ws.hasInitialLogLevel && !env.setLevelOk },
         lvlEvs ++ [(.experimentSelected, true)])
      else (ws, [(.statusUpdate "error", true)])
  | .refreshHistory =>
      if !ws.hasController || ws.ctrlOffline then (ws, [])
      else
        -- `SimulationController` defines no `refresh_history`; the
        -- `AttributeError` reaches the loop's outer handler
        (ws, [(.statusUpdate "critical", true)])
  | .atomicStep =>
      if !ws.hasController || ws.ctrlOffline then (ws, [])
      else if env.stepOk then
        if env.getLogsOk then
          (ws, [(.newFrameData, true), (.logsUpdated, false)])
        else (ws, [(.newFrameData, true)])
      else (ws, [(.stepFailed, true)])
  | .executeRun =>
      if !ws.hasController || ws.ctrlOffline then (ws, [])
      else if env.runOk then
        (ws, [(.statusUpdate "info", false), (.runExecutionResult true, true)])
      else
        (ws, [(.runExecutionResult false, true), (.statusUpdate "error", false)])
  | .assembleHgl =>
      if !ws.hasController then (ws, [])
      else (ws, [(.assemblyResult env.assembleOk, true)])
  | .decompileHgl =>
      if !ws.hasController then (ws, [])
      else (ws, [(.decompilationResult env.decompileOk, true)])
  | .evoStart =>
      if !ws.hasController || ws.ctrlOffline then (ws, [])
      else if env.evoStartOk then (ws, [(.statusUpdate "success", true)])
      else (ws, [(.statusUpdate "error", true)])
  | .evoStop =>
      if !ws.hasController || ws.ctrlOffline then (ws, [])
      else if env.evoStopOk then (ws, [(.statusUpdate "info", true)])
      else (ws, [(.statusUpdate "error", true)])
  | .getEvoStatus =>
      if !ws.hasController || ws.ctrlOffline then (ws, [])
      else if env.evoStatusOk then (ws, [(.liveStatusUpdate, true)])
      else (ws, [])  -- `except Exception: pass`
  | .evoLoadGen =>
      if !ws.hasController || ws.ctrlOffline then (ws, [])
      else if env.evoLoadGenOk then
        if env.listAfterLoadGenOk then
          (ws, [(.statusUpdate "success", false), (.experimentList, true)])
        else
          (ws, [(.statusUpdate "success", false), (.statusUpdate "error", true)])
      else (ws, [(.statusUpdate "error", true)])
  | .evoExportCsv =>
      if !ws.hasController || ws.ctrlOffline then (ws, [])
      else if env.evoExportOk then (ws, [(.statusUpdate "success", true)])
      else (ws, [(.statusUpdate "error", true)])
  | .setLogLevel => (ws, [])
  | .getLiveStatus hasExpId =>
      if !ws.hasController || ws.ctrlOffline || !hasExpId then (ws, [])
      else if env.statusOk then (ws, [(.liveStatusUpdate, true)])
      else (ws, [(.statusUpdate "error", true)])

/-- Number of terminal result events among a branch's emissions. -/
def terminalCount (evs : List (WEv × Bool)) : Nat :=
  (evs.filter (fun p => p.2)).length

/-- The commands for which the dispatch emits no terminal result event:
the `Stop` sentinel; commands whose guard silently skips them (no
controller attached, offline controller, or a missing `exp_id` for
`GET_LIVE_STATUS`); `GET_EVO_STATUS` when the status query fails (its
exception is swallowed); and `SET_LOG_LEVEL`, which no branch handles. -/
def noResultExpected (env : WEnv) (ws : WState) : WCmd → Bool
  | .stop => true
  | .connect => false
  | .loadFile => false
  | .selectExperiment => false
  | .saveReplay => !ws.hasController
  | .assembleHgl => !ws.hasController
  | .decompileHgl => !ws.hasController
  | .getEvoStatus => !ws.hasController || ws.ctrlOffline || !env.evoStatusOk
  | .setLogLevel => true
  | .getLiveStatus hasExpId => !ws.hasController || ws.ctrlOffline || !hasExpId
  | _ => !ws.hasController || ws.ctrlOffline

/-! ## Concrete states used to instantiate the theorems -/

/-- A live session `"e"` with frames cached at ticks 0..3. -/
def stPlay : Store := [("e", [0, 1, 2, 3])]

/-- Window state: session `"e"` selected, displaying tick 3, auto-play
running with no target. -/
def mwPlay : MW :=
  { selectedExpId := some "e", currentDisplayTick := 3, isPlaying := true,
    targetTick := none, isOfflineMode := false, lastResolved := some ("e", 3) }

/-- A live session `"e"` with frames cached at ticks 0..4 (server max 4). -/
def stRun : Store := [("e", [0, 1, 2, 3, 4])]

/-- Window state: session `"e"` selected, displaying tick 4, paused. -/
def mwRun : MW :=
  { selectedExpId := some "e", currentDisplayTick := 4, isPlaying := false,
    targetTick := none, isOfflineMode := false, lastResolved := some ("e", 4) }

/-- A live session `"e"` whose only cached frame is tick 0. -/
def stOne : Store := [("e", [0])]

/-- Window state: session `"e"` selected, displaying tick 0, playing. -/
def mwOne : MW :=
  { selectedExpId := some "e", currentDisplayTick := 0, isPlaying := true,
    targetTick := none, isOfflineMode := false, lastResolved := some ("e", 0) }

/-- Window state: session `"e"` selected, nothing displayed yet, paused. -/
def mwFresh : MW :=
  { selectedExpId := some "e", currentDisplayTick := 0, isPlaying := false,
    targetTick := none, isOfflineMode := false, lastResolved := none }

/-- Select session `"a"` (history `[0]`), then session `"b"` (empty
history): the second selection finds no frame to display and keeps the
stale displayed tick. -/
def staleSeq : List POp :=
  [.select "a" ⟨true, some [0]⟩, .select "b" ⟨true, some []⟩]

/-- Worker oracle in which every interaction succeeds except the
evolution status query. -/
def envEvo : WEnv :=
  { connectOk := true, loadR := .ok, listOk := true, childrenOk := true,
    createOk := true, cloneOk := true, deleteOk := true, renameOk := true,
    listAfterRenameOk := true, saveOk := true, ctrlConnectOk := true,
    setLevelOk := true, stepOk := true, getLogsOk := true, runOk := true,
    assembleOk := true, decompileOk := true, evoStartOk := true,
    evoStopOk := true, evoStatusOk := false, evoLoadGenOk := true,
    listAfterLoadGenOk := true, evoExportOk := true, statusOk := true }

/-- Worker oracle in which every interaction succeeds except
`step_with_inputs`. -/
def envStepFail : WEnv :=
  { envEvo with evoStatusOk := true, stepOk := false }

/-- Worker state: a live controller is attached. -/
def wsLive : WState :=
  { hasController := true, ctrlOffline := false,
    hasInitialLogLevel := false, running := true }

/-- Replay document whose second frame record is the number 42 (a
non-dict record: `frame_data.get` raises `AttributeError` mid-loop). -/
def docBadFrame : JVal :=
  .obj [("metadata", .obj [("experimentId", .str "e")]),
        ("frames", .arr [.obj [("tick", .num 0)], .num 42])]

/-- Controller state holding a previously loaded session `"old"`. -/
def ctrlPrev : CtrlState := ⟨[("old", [0, 1])], false⟩

/-- Frame records for a well-formed two-frame replay file. -/
def okRecs : List JVal := [.obj [("tick", .num 0)], .obj [("tick", .num 1)]]

/-- A frame record of `load_from_file` that the loading loop accepts: a
dict whose `tick` is an integer and whose `events` normalize without
raising. -/
def wfFrameRec (dec : String → Option JVal) : JVal → Bool
  | .obj gfs =>
      (match jGetD gfs "tick" (.num 0) with
       | .num _ => true
       | _ => false) &&
      (match parse_events dec (jGetD gfs "events" (.arr [])) with
       | .ok _ => true
       | .error _ => false)
  | _ => false

/-! ## Helper lemmas -/

theorem foldl_max_mem (xs : List Int) (a : Int) :
    xs.foldl max a = a ∨ xs.foldl max a ∈ xs := by
  induction xs generalizing a with
  | nil => exact Or.inl rfl
  | cons x xs ih =>
      rw [List.foldl_cons]
      rcases ih (max a x) with h | h
      · rcases max_choice a x with hm | hm
        · exact Or.inl (h.trans hm)
        · exact Or.inr (by rw [h, hm]; exact List.mem_cons_self _ _)
      · exact Or.inr (List.mem_cons_of_mem _ h)

theorem foldl_min_mem (xs : List Int) (a : Int) :
    xs.foldl min a = a ∨ xs.foldl min a ∈ xs := by
  induction xs generalizing a with
  | nil => exact Or.inl rfl
  | cons x xs ih =>
      rw [List.foldl_cons]
      rcases ih (min a x) with h | h
      · rcases min_choice a x with hm | hm
        · exact Or.inl (h.trans hm)
        · exact Or.inr (by rw [h, hm]; exact List.mem_cons_self _ _)
      · exact Or.inr (List.mem_cons_of_mem _ h)

theorem maxKey_mem {m : TickMap} (h : m ≠ []) : maxKey m ∈ m := by
  match m with
  | [] => exact absurd rfl h
  | t :: ts =>
      show ts.foldl max t ∈ t :: ts
      rcases foldl_max_mem ts t with h' | h'
      · rw [h']; exact List.mem_cons_self _ _
      · exact List.mem_cons_of_mem _ h'

theorem minKey_mem {m : TickMap} (h : m ≠ []) : minKey m ∈ m := by
  match m with
  | [] => exact absurd rfl h
  | t :: ts =>
      show ts.foldl min t ∈ t :: ts
      rcases foldl_min_mem ts t with h' | h'
      · rw [h']; exact List.mem_cons_self _ _
      · exact List.mem_cons_of_mem _ h'

theorem storeFind_storeSet_self (e : String) (m : TickMap) (st : Store) :
    storeFind (storeSet e m st) e = some m := by
  induction st with
  | nil => simp [storeSet, storeFind]
  | cons kv rest ih =>
      by_cases h : kv.1 = e
      · simp [storeSet, storeFind, h]
      · simp [storeSet, storeFind, h, ih]

theorem mem_tickInsert_self (t : Int) (m : TickMap) : t ∈ tickInsert t m := by
  by_cases h : t ∈ m
  · simp [tickInsert, h]
  · simp [tickInsert, h]

theorem keysOf_storeInsertTick_self (e : String) (t : Int) (st : Store) :
    t ∈ keysOf (storeInsertTick e t st) e := by
  simp only [keysOf, storeInsertTick, storeFind_storeSet_self, Option.getD_some]
  exact mem_tickInsert_self _ _

theorem storeFind_eq_none (st : Store) (e : String)
    (h : e ∉ st.map Prod.fst) : storeFind st e = none := by
  induction st with
  | nil => rfl
  | cons kv rest ih =>
      simp only [List.map_cons, List.mem_cons] at h
      push_neg at h
      have hne : ¬ kv.1 = e := fun hc => h.1 hc.symm
      simp [storeFind, hne, ih h.2]

theorem storeFind_storeDelete_self (st : Store) (e : String)
    (h : (st.map Prod.fst).Nodup) : storeFind (storeDelete e st) e = none := by
  induction st with
  | nil => rfl
  | cons kv rest ih =>
      simp only [List.map_cons, List.nodup_cons] at h
      by_cases hc : kv.1 = e
      · simp only [storeDelete, hc, if_pos rfl]
        exact storeFind_eq_none _ _ (hc ▸ h.1)
      · simp [storeDelete, hc, storeFind, ih h.2]

theorem get_frame_mem {st : Store} {e : String} {t t' : Int}
    (h : get_frame st e t = some t') : t' ∈ keysOf st e := by
  unfold get_frame at h
  cases hf : storeFind st e with
  | none => simp [hf] at h
  | some m =>
      rw [hf] at h
      by_cases hm : t ∈ m
      · simp only [if_pos hm, Option.some.injEq] at h
        subst h
        simpa [keysOf, hf] using hm
      · simp [hm] at h

theorem get_latest_frame_mem {st : Store} {e : String} {t : Int}
    (h : get_latest_frame st e = some t) : t ∈ keysOf st e := by
  unfold get_latest_frame at h
  cases hf : storeFind st e with
  | none => simp [hf] at h
  | some m =>
      rw [hf] at h
      match m, h with
      | t' :: ts, h =>
          simp only [Option.some.injEq] at h
          subst h
          simpa [keysOf, hf] using maxKey_mem (List.cons_ne_nil t' ts)

theorem get_first_frame_mem {st : Store} {e : String} {t : Int}
    (h : get_first_frame st e = some t) : t ∈ keysOf st e := by
  unfold get_first_frame at h
  cases hf : storeFind st e with
  | none => simp [hf] at h
  | some m =>
      rw [hf] at h
      match m, h with
      | t' :: ts, h =>
          simp only [Option.some.injEq] at h
          subst h
          simpa [keysOf, hf] using minKey_mem (List.cons_ne_nil t' ts)

theorem setAndDisplayTick_sound (st : Store) (t : Int) (m : MW)
    {e' : String} {t' : Int}
    (h : (setAndDisplayTick st t m).lastResolved = some (e', t')) :
    m.lastResolved = some (e', t') ∨ t' ∈ keysOf st e' := by
  cases hs : m.selectedExpId with
  | none => simp only [setAndDisplayTick, hs] at h; exact Or.inl h
  | some e =>
      cases hg : get_frame st e t with
      | none => simp only [setAndDisplayTick, hs, hg] at h; exact Or.inl h
      | some t2 =>
          simp only [setAndDisplayTick, hs, hg, displayFrame,
            Option.some.injEq, Prod.mk.injEq] at h
          rcases h with ⟨he, ht⟩
          subst he; subst ht
          exact Or.inr (get_frame_mem hg)

theorem setAndDisplayTick_isPlaying (st : Store) (t : Int) (m : MW) :
    (setAndDisplayTick st t m).isPlaying = m.isPlaying := by
  cases hs : m.selectedExpId with
  | none => simp [setAndDisplayTick, hs]
  | some e =>
      cases hg : get_frame st e t <;>
        simp [setAndDisplayTick, hs, hg, displayFrame]

theorem setAndDisplayTick_targetTick (st : Store) (t : Int) (m : MW) :
    (setAndDisplayTick st t m).targetTick = m.targetTick := by
  cases hs : m.selectedExpId with
  | none => simp [setAndDisplayTick, hs]
  | some e =>
      cases hg : get_frame st e t <;>
        simp [setAndDisplayTick, hs, hg, displayFrame]

theorem executeStepForward_sound (so : StepOutcome) (st : Store) (m : MW)
    {e' : String} {t' : Int}
    (h : (executeStepForward so st m).2.1.lastResolved = some (e', t')) :
    m.lastResolved = some (e', t') ∨
      t' ∈ keysOf (executeStepForward so st m).1 e' := by
  cases hs : m.selectedExpId with
  | none => simp only [executeStepForward, hs] at h; exact Or.inl h
  | some e =>
      by_cases hc :
          (!m.isOfflineMode && is_latest_tick st e m.currentDisplayTick) = true
      · cases so with
        | ok t2 =>
            simp only [executeStepForward, hs, hc, if_true, displayFrame,
              Option.some.injEq, Prod.mk.injEq] at h ⊢
            rcases h with ⟨he, ht⟩
            subst he; subst ht
            exact Or.inr (keysOf_storeInsertTick_self _ _ _)
        | fail =>
            simp only [executeStepForward, hs, hc, if_true] at h
            exact Or.inl h
      · rw [Bool.not_eq_true] at hc
        simp only [executeStepForward, hs, hc, Bool.false_eq_true,
          if_false] at h ⊢
        exact setAndDisplayTick_sound st _ m h

theorem executeStepForward_isPlaying (so : StepOutcome) (st : Store) (m : MW) :
    (executeStepForward so st m).2.1.isPlaying = m.isPlaying := by
  cases hs : m.selectedExpId with
  | none => simp [executeStepForward, hs]
  | some e =>
      by_cases hc :
          (!m.isOfflineMode && is_latest_tick st e m.currentDisplayTick) = true
      · cases so <;> simp [executeStepForward, hs, hc, displayFrame]
      · rw [Bool.not_eq_true] at hc
        simp only [executeStepForward, hs, hc, Bool.false_eq_true, if_false]
        exact setAndDisplayTick_isPlaying _ _ _

theorem executeStepForward_targetTick (so : StepOutcome) (st : Store) (m : MW) :
    (executeStepForward so st m).2.1.targetTick = m.targetTick := by
  cases hs : m.selectedExpId with
  | none => simp [executeStepForward, hs]
  | some e =>
      by_cases hc :
          (!m.isOfflineMode && is_latest_tick st e m.currentDisplayTick) = true
      · cases so <;> simp [executeStepForward, hs, hc, displayFrame]
      · rw [Bool.not_eq_true] at hc
        simp only [executeStepForward, hs, hc, Bool.false_eq_true, if_false]
        exact setAndDisplayTick_targetTick _ _ _

theorem executeStepForward_cmds (so : StepOutcome) (st : Store) (m : MW) :
    (executeStepForward so st m).2.2 = [] ∨
      ∃ e, m.selectedExpId = some e ∧
        (executeStepForward so st m).2.2 = [Cmd.atomicStep e] := by
  cases hs : m.selectedExpId with
  | none => simp [executeStepForward, hs]
  | some e =>
      by_cases hc :
          (!m.isOfflineMode && is_latest_tick st e m.currentDisplayTick) = true
      · cases so <;>
          exact Or.inr ⟨e, rfl, by simp [executeStepForward, hs, hc]⟩
      · rw [Bool.not_eq_true] at hc
        simp [executeStepForward, hs, hc]

theorem onPlaybackTick_sound (so : StepOutcome) (st : Store) (m : MW)
    {e' : String} {t' : Int}
    (h : (onPlaybackTick so st m).2.1.lastResolved = some (e', t')) :
    m.lastResolved = some (e', t') ∨
      t' ∈ keysOf (onPlaybackTick so st m).1 e' := by
  by_cases hp : m.isPlaying = false
  · simp only [onPlaybackTick, hp, if_true] at h
    exact Or.inl h
  · cases ht : m.targetTick with
    | none =>
        simp only [onPlaybackTick, hp, ht, if_false] at h ⊢
        exact executeStepForward_sound so st m h
    | some tgt =>
        by_cases hr : tgt ≤ m.currentDisplayTick
        · simp only [onPlaybackTick, hp, ht, hr, if_false, if_true,
            pauseViaToggle] at h
          exact Or.inl h
        · simp only [onPlaybackTick, hp, ht, hr, if_false] at h ⊢
          exact executeStepForward_sound so st m h

theorem onExperimentSelected_sound (e : String) (st : Store) (m : MW)
    {e' : String} {t' : Int}
    (h : (onExperimentSelected e st m).lastResolved = some (e', t')) :
    m.lastResolved = some (e', t') ∨ t' ∈ keysOf st e' := by
  by_cases ho : m.isOfflineMode = true
  · cases hg : get_first_frame st e with
    | none =>
        simp only [onExperimentSelected, ho, hg, if_true] at h
        exact Or.inl h
    | some t2 =>
        simp only [onExperimentSelected, ho, hg, if_true, displayFrame,
          Option.some.injEq, Prod.mk.injEq] at h
        rcases h with ⟨he2, ht2⟩
        subst he2; subst ht2
        exact Or.inr (get_first_frame_mem hg)
  · rw [Bool.not_eq_true] at ho
    cases hg : get_latest_frame st e with
    | none =>
        simp only [onExperimentSelected, ho, hg, Bool.false_eq_true,
          if_false] at h
        exact Or.inl h
    | some t2 =>
        simp only [onExperimentSelected, ho, hg, Bool.false_eq_true,
          if_false, displayFrame, Option.some.injEq, Prod.mk.injEq] at h
        rcases h with ⟨he2, ht2⟩
        subst he2; subst ht2
        exact Or.inr (get_latest_frame_mem hg)

theorem pauseViaToggle_lastResolved (m : MW) :
    (pauseViaToggle m).lastResolved = m.lastResolved := rfl

theorem selectExperiment_sound (e : String) (o : ApiOracle) (st : Store)
    (m : MW) {e' : String} {t' : Int}
    (h : (selectExperiment e o st m).2.lastResolved = some (e', t')) :
    m.lastResolved = some (e', t') ∨
      t' ∈ keysOf (selectExperiment e o st m).1 e' := by
  by_cases hid : m.selectedExpId = some e
  · simp only [selectExperiment, hid, if_true] at h
    exact Or.inl h
  · have hm1 :
        ((if m.isPlaying then pauseViaToggle m else m) : MW).lastResolved =
          m.lastResolved := by
      by_cases hp : m.isPlaying = true <;> simp [hp, pauseViaToggle]
    by_cases ho :
        ((if m.isPlaying then pauseViaToggle m else m) : MW).isOfflineMode = true
    · simp only [selectExperiment, hid, if_false, ho, if_true] at h ⊢
      rcases onExperimentSelected_sound e st _ h with h' | h'
      · exact Or.inl (hm1 ▸ h')
      · exact Or.inr h'
    · rw [Bool.not_eq_true] at ho
      rcases hcon : connect o e ⟨st, false⟩ with ⟨b, c'⟩
      cases b
      · simp only [selectExperiment, hid, if_false, ho, Bool.false_eq_true,
          hcon] at h ⊢
        exact Or.inl (hm1 ▸ h)
      · simp only [selectExperiment, hid, if_false, ho, Bool.false_eq_true,
          hcon] at h ⊢
        rcases onExperimentSelected_sound e c'.store _ h with h' | h'
        · exact Or.inl (hm1 ▸ h')
        · exact Or.inr h'

theorem mem_normEvents (dec : String → Option JVal) {xs : List JVal}
    {ev v : JVal} (hev : ev ∈ xs) (hv : v ∈ normEvent dec ev) :
    v ∈ normEvents dec xs := by
  induction xs with
  | nil => cases hev
  | cons x xs ih =>
      rcases List.mem_cons.mp hev with h | h
      · subst h
        exact List.mem_append.mpr (Or.inl hv)
      · exact List.mem_append.mpr (Or.inr (ih h))

theorem pauseIf_lastResolved (m : MW) :
    ((if m.isPlaying then pauseViaToggle m else m) : MW).lastResolved =
      m.lastResolved := by
  by_cases hp : m.isPlaying = true <;> simp [hp, pauseViaToggle]

theorem jumpToTick_sound (t : Int) (st : Store) (m : MW)
    {e : String} {t' : Int}
    (h : (jumpToTick t st m).lastResolved = some (e, t')) :
    m.lastResolved = some (e, t') ∨ t' ∈ keysOf st e := by
  simp only [jumpToTick] at h
  rcases setAndDisplayTick_sound st t _ h with h' | h'
  · exact Or.inl ((pauseIf_lastResolved m).symm.trans h')
  · exact Or.inr h'

theorem stepBackward_sound (st : Store) (m : MW) {e : String} {t' : Int}
    (h : (stepBackward st m).lastResolved = some (e, t')) :
    m.lastResolved = some (e, t') ∨ t' ∈ keysOf st e := by
  simp only [stepBackward] at h
  cases hs : ((if m.isPlaying then pauseViaToggle m else m) : MW).selectedExpId with
  | none =>
      simp only [hs] at h
      exact Or.inl ((pauseIf_lastResolved m).symm.trans h)
  | some e0 =>
      simp only [hs] at h
      rcases setAndDisplayTick_sound st _ _ h with h' | h'
      · exact Or.inl ((pauseIf_lastResolved m).symm.trans h')
      · exact Or.inr h'

theorem stopPlayback_sound (st : Store) (m : MW) {e : String} {t' : Int}
    (h : (stopPlayback st m).lastResolved = some (e, t')) :
    m.lastResolved = some (e, t') ∨ t' ∈ keysOf st e := by
  by_cases hp : m.isPlaying = true
  · simp [stopPlayback, hp, pauseViaToggle] at h
    cases hs : m.selectedExpId with
    | none =>
        simp only [hs] at h
        exact Or.inl h
    | some e0 =>
        cases hg : get_first_frame st e0 with
        | none =>
            simp only [hs, hg] at h
            exact Or.inl h
        | some t0 =>
            simp only [hs, hg] at h
            rcases setAndDisplayTick_sound st t0 _ h with h' | h'
            · exact Or.inl h'
            · exact Or.inr h'
  · simp [stopPlayback, hp, pauseViaToggle] at h
    cases hs : m.selectedExpId with
    | none =>
        simp only [hs] at h
        exact Or.inl h
    | some e0 =>
        cases hg : get_first_frame st e0 with
        | none =>
            simp only [hs, hg] at h
            exact Or.inl h
        | some t0 =>
            simp only [hs, hg] at h
            rcases setAndDisplayTick_sound st t0 _ h with h' | h'
            · exact Or.inl h'
            · exact Or.inr h'

theorem stepForward_sound (so : StepOutcome) (st : Store) (m : MW)
    {e : String} {t' : Int}
    (h : (stepForward so st m).2.1.lastResolved = some (e, t')) :
    m.lastResolved = some (e, t') ∨
      t' ∈ keysOf (stepForward so st m).1 e := by
  simp only [stepForward] at h ⊢
  rcases executeStepForward_sound so st _ h with h' | h'
  · exact Or.inl ((pauseIf_lastResolved m).symm.trans h')
  · exact Or.inr h'

theorem onPlayPauseToggled_sound (checked : Bool) (so : StepOutcome)
    (st : Store) (m : MW) {e : String} {t' : Int}
    (h : (onPlayPauseToggled checked so st m).2.1.lastResolved =
      some (e, t')) :
    m.lastResolved = some (e, t') ∨
      t' ∈ keysOf (onPlayPauseToggled checked so st m).1 e := by
  cases checked
  · simp only [onPlayPauseToggled, Bool.false_eq_true, if_false] at h
    exact Or.inl h
  · simp only [onPlayPauseToggled, if_true] at h ⊢
    rcases onPlaybackTick_sound so st _ h with h' | h'
    · exact Or.inl h'
    · exact Or.inr h'

theorem playUntilSpecified_sound (target : Int) (so : StepOutcome)
    (st : Store) (m : MW) {e : String} {t' : Int}
    (h : (playUntilSpecified target so st m).2.1.lastResolved =
      some (e, t')) :
    m.lastResolved = some (e, t') ∨
      t' ∈ keysOf (playUntilSpecified target so st m).1 e := by
  by_cases hlt : m.currentDisplayTick < target
  · by_cases hp : m.isPlaying = false
    · simp [playUntilSpecified, hlt, hp] at h ⊢
      rcases onPlayPauseToggled_sound true so st _ h with h' | h'
      · exact Or.inl h'
      · exact Or.inr h'
    · simp [playUntilSpecified, hlt, hp] at h
      exact Or.inl h
  · simp [playUntilSpecified, hlt] at h
    exact Or.inl h

theorem onPlaybackTick_eq_step (so : StepOutcome) (st : Store) (m : MW)
    (hp : m.isPlaying = true)
    (htgt : ∀ tgt, m.targetTick = some tgt → m.currentDisplayTick < tgt) :
    onPlaybackTick so st m = executeStepForward so st m := by
  cases ht : m.targetTick with
  | none => simp [onPlaybackTick, hp, ht]
  | some tgt => simp [onPlaybackTick, hp, ht, not_le.mpr (htgt tgt ht)]

theorem onPlayPauseToggled_true_props (so : StepOutcome) (st : Store)
    (m : MW)
    (htgt : ∀ tgt, m.targetTick = some tgt → m.currentDisplayTick < tgt) :
    (onPlayPauseToggled true so st m).2.1.targetTick = m.targetTick ∧
    (onPlayPauseToggled true so st m).2.1.isPlaying = true ∧
    ∀ x, Cmd.executeRun x ∉ (onPlayPauseToggled true so st m).2.2 := by
  have hred := onPlaybackTick_eq_step so st ({ m with isPlaying := true })
    rfl (fun tgt hh => htgt tgt hh)
  refine ⟨?_, ?_, ?_⟩
  · show (onPlaybackTick so st ({ m with isPlaying := true })).2.1.targetTick =
      m.targetTick
    rw [hred, executeStepForward_targetTick]
  · show (onPlaybackTick so st ({ m with isPlaying := true })).2.1.isPlaying =
      true
    rw [hred, executeStepForward_isPlaying]
  · intro x
    show Cmd.executeRun x ∉
      (onPlaybackTick so st ({ m with isPlaying := true })).2.2
    rw [hred]
    rcases executeStepForward_cmds so st ({ m with isPlaying := true }) with
      hc | ⟨e0, _, hc⟩ <;> rw [hc] <;> simp

/-! ## Claim theorems -/

/-- C5 (amended): `is_latest_tick(session, t)` returns true iff the
session is known with a non-empty frame map and `t` is greater than or
equal to the maximum tick key — not only when `t` equals the maximum;
it returns false for every smaller `t` and for an empty or unknown
session. -/
theorem claim5_is_latest_tick_char (st : Store) (e : String) (t : Int) :
    is_latest_tick st e t = true ↔
      ∃ m, storeFind st e = some m ∧ m ≠ [] ∧ maxKey m ≤ t := by
  cases hf : storeFind st e with
  | none => simp [is_latest_tick, hf]
  | some m =>
      match m with
      | [] => simp [is_latest_tick, hf]
      | t0 :: ts => simp [is_latest_tick, hf]

/-- C5 (counterexample): with the single frame map `{0}` for session
`"e"`, `is_latest_tick("e", 1)` returns true although 1 is not equal to
the maximum key 0, contradicting the claim that it is true iff `t`
equals the maximum tick key. -/
theorem claim5_counterexample :
    is_latest_tick [("e", [0])] "e" 1 = true ∧
    maxKey (keysOf [("e", [0])] "e") = 0 ∧ (1 : Int) ≠ 0 := by
  exact ⟨rfl, rfl, by decide⟩

/-- C10 (confirmed): `connect(exp_id)` deletes any cached frames for
`exp_id` before performing the `get_status` reachability check, so when
the check fails it returns false and the previously cached frames stay
deleted rather than restored (the well-formedness hypothesis states the
store's dict keys are unique). -/
theorem claim10_connect_nonatomic (o : ApiOracle) (e : String)
    (c : CtrlState) (hfail : o.statusOk = false)
    (hwf : (c.store.map Prod.fst).Nodup) :
    connect o e c = (false, ⟨storeDelete e c.store, c.isOffline⟩) ∧
    storeFind (connect o e c).2.store e = none := by
  have h1 : connect o e c = (false, ⟨storeDelete e c.store, c.isOffline⟩) := by
    simp [connect, hfail]
  refine ⟨h1, ?_⟩
  rw [h1]
  exact storeFind_storeDelete_self _ _ hwf

/-- C10 (witness): a failing status check on a controller that had
frames cached for `"e"` returns false and leaves those frames deleted. -/
theorem claim10_witness :
    connect ⟨false, none⟩ "e" ⟨[("e", [0, 1, 2]), ("x", [5])], false⟩ =
      (false, ⟨[("x", [5])], false⟩) ∧
    storeFind (connect ⟨false, none⟩ "e"
        ⟨[("e", [0, 1, 2]), ("x", [5])], false⟩).2.store "e" = none :=
  claim10_connect_nonatomic ⟨false, none⟩ "e"
    ⟨[("e", [0, 1, 2]), ("x", [5])], false⟩ rfl (by decide)

/-- C4 (amended): each dequeued command produces exactly one terminal
result event, except that none is produced by the `Stop` sentinel, by
commands silently skipped by their guard (no controller attached,
offline controller, or missing `exp_id` for `GET_LIVE_STATUS`), by the
unhandled `SET_LOG_LEVEL` command, and by `GET_EVO_STATUS` when its
status query fails (the exception is swallowed). -/
theorem claim4_terminal_result_count (env : WEnv) (ws : WState) (c : WCmd) :
    terminalCount (processCommand env ws c).2 =
      if noResultExpected env ws c then 0 else 1 := by
  cases c <;>
    simp only [processCommand, noResultExpected] <;>
    (repeat' split) <;>
    simp_all [terminalCount]

/-- C4 (counterexample): a `GET_EVO_STATUS` command processed with a
live controller whose status query fails emits no result event at all,
although it is not the `Stop` sentinel — contradicting the claim that
every processed command except `Stop` emits exactly one terminal result
event. -/
theorem claim4_counterexample :
    (processCommand envEvo wsLive .getEvoStatus).2 = [] ∧
    WCmd.getEvoStatus ≠ WCmd.stop :=
  ⟨rfl, by decide⟩

/-- C6 (confirmed): event normalization accepts both a wrapper dict
carrying a `$values` list and a plain list, never raises for the whole
batch on such input, and replaces every string element that fails JSON
decoding by the `InvalidEventFormat` record carrying the original
string. -/
theorem claim6_parse_events_total (dec : String → Option JVal)
    (xs : List JVal) (raw : JVal)
    (h : (∃ fs, raw = .obj fs ∧ jLookup fs "$values" = some (.arr xs)) ∨
         raw = .arr xs) :
    parse_events dec raw = .ok (normEvents dec xs) ∧
    ∀ s, JVal.str s ∈ xs → dec s = none →
      invalidEventRecord s ∈ normEvents dec xs := by
  constructor
  · rcases h with ⟨fs, rfl, hv⟩ | rfl
    · have hfs : fs ≠ [] := by
        intro h0
        subst h0
        simp [jLookup] at hv
      simp [parse_events, pyTruthy, List.isEmpty_iff, hfs, hv, pyIter]
    · match xs with
      | [] => simp [parse_events, pyTruthy, normEvents]
      | x :: xs => simp [parse_events, pyTruthy, pyIter]
  · intro s hs hdec
    refine mem_normEvents dec hs ?_
    simp [normEvent, hdec, invalidEventRecord]

/-- C6 (witness): the malformed event string `"not json"` inside a
plain event list normalizes to the `InvalidEventFormat` record rather
than raising. -/
theorem claim6_witness :
    parse_events (fun _ => none) (.arr [.str "not json"]) =
      .ok [invalidEventRecord "not json"] ∧
    invalidEventRecord "not json" ∈
      normEvents (fun _ => none) [.str "not json"] :=
  ⟨(claim6_parse_events_total (fun _ => none) [.str "not json"]
      (.arr [.str "not json"]) (Or.inr rfl)).1,
   (claim6_parse_events_total (fun _ => none) [.str "not json"]
      (.arr [.str "not json"]) (Or.inr rfl)).2 "not json"
      (List.mem_singleton.mpr rfl) rfl⟩

/-- C7 (amended): every `_request` call either returns the decoded
response value or raises a `HidraApiException`: transport failures map
to the `ConnectionError` kind; a non-OK response whose body is a JSON
object raises an error carrying the server's status verbatim, with kind
and message resolved from `error`/`message` and the ProblemDetails
fallback `title`/`detail`; but a non-OK response whose body fails JSON
decoding is re-raised through `raise_for_status` as a `ConnectionError`
with status 503, losing the server's status. -/
theorem claim7_request_taxonomy (url : String) :
    (∀ msg, hidraRequest url (.transportFail msg) =
      .error (connectionError url msg)) ∧
    (∀ r ef mf tf df, r.respOk = false → r.body = .jsonObj ef mf tf df →
      hidraRequest url (.response r) =
        .error ⟨r.statusCode, resolveErrorType ef tf,
                resolveMessage mf df r.text⟩) ∧
    (∀ r, r.respOk = false → r.body = .nonJson →
      hidraRequest url (.response r) =
        .error (connectionError url "HTTPError")) := by
  refine ⟨fun msg => rfl, ?_, ?_⟩
  · intro r ef mf tf df hok hb
    simp [hidraRequest, hok, hb]
  · intro r hok hb
    simp [hidraRequest, hok, hb]

/-- C7 (witness): a 404 response with a ProblemDetails body
(`title`/`detail`) raises an error carrying status 404 and the mapped
kind and message. -/
theorem claim7_witness :
    hidraRequest "u" (.response ⟨false, 404, "t",
        .jsonObj none none (some "Not Found") (some "missing")⟩) =
      .error ⟨404, "Not Found", "missing"⟩ :=
  (claim7_request_taxonomy "u").2.1
    ⟨false, 404, "t", .jsonObj none none (some "Not Found") (some "missing")⟩
    none none (some "Not Found") (some "missing") rfl rfl

/-- C7 (counterexample): a non-OK response with status 500 whose body
is not JSON raises an error of kind `ConnectionError` with status 503 —
not an error carrying the server's status 500 — contradicting the claim
that every non-OK server response raises a `RemoteError`-typed error
carrying the server's status verbatim. -/
theorem claim7_counterexample :
    hidraRequest "u" (.response ⟨false, 500, "oops", .nonJson⟩) =
      .error ⟨503, "ConnectionError",
        "Failed to connect to the API at u: HTTPError"⟩ ∧
    (503 : Int) ≠ 500 :=
  ⟨rfl, by decide⟩

/-- C1 (amended): any frame display performed by a completed playback
transition shows a tick present in the resulting store for the session
it was resolved from — the display is never advanced to a tick whose
frame is absent; however (see the counterexample) the displayed tick is
not an invariant of the currently selected session: selecting a session
whose frame map lacks the displayed tick keeps the stale tick. -/
theorem claim1_display_soundness (st : Store) (m : MW) (op : POp)
    (e : String) (t : Int)
    (h : (applyOp (st, m) op).2.lastResolved = some (e, t)) :
    m.lastResolved = some (e, t) ∨ t ∈ keysOf (applyOp (st, m) op).1 e := by
  cases op with
  | select e' o => exact selectExperiment_sound e' o st m h
  | playToggle checked so => exact onPlayPauseToggled_sound checked so st m h
  | timerFire so => exact onPlaybackTick_sound so st m h
  | jump t' => exact jumpToTick_sound t' st m h
  | stepFwd so => exact stepForward_sound so st m h
  | stepBack => exact stepBackward_sound st m h
  | stopPb => exact stopPlayback_sound st m h
  | playUntil target so => exact playUntilSpecified_sound target so st m h

/-- C1 (witness): jumping to tick 0 with frame 0 cached displays a tick
present in the store. -/
theorem claim1_witness :
    (applyOp (stOne, mwFresh) (.jump 0)).2.lastResolved = some ("e", 0) ∧
    (mwFresh.lastResolved = some ("e", 0) ∨
      0 ∈ keysOf (applyOp (stOne, mwFresh) (.jump 0)).1 "e") :=
  ⟨rfl, claim1_display_soundness stOne mwFresh (.jump 0) "e" 0 rfl⟩

/-- C1 (counterexample): after displaying tick 0 of session `"a"` and
then selecting session `"b"` whose downloaded history is empty, a frame
has been successfully resolved and displayed, yet the displayed tick 0
is not a key of the current session `"b"`'s frame map — contradicting
the claimed invariant that after any completed transition the displayed
tick is a key present in the current session's frame map. -/
theorem claim1_counterexample :
    (runOps ([], initialMW) staleSeq).2.lastResolved = some ("a", 0) ∧
    (runOps ([], initialMW) staleSeq).2.selectedExpId = some "b" ∧
    (runOps ([], initialMW) staleSeq).2.currentDisplayTick ∉
      keysOf (runOps ([], initialMW) staleSeq).1 "b" :=
  ⟨rfl, rfl, by decide⟩

/-- C2 (amended): when the auto-play timer fires while playing, with no
reached stop target and the frame for `currentTick + 1` absent from the
store, the controller does not stop the timer, has no buffering state,
and never issues a `RefreshHistory` command: if the session is live and
the displayed tick is at or past the latest cached tick it enqueues a
single `AtomicStep` command (advancing the server by one tick), and
otherwise the fire leaves the display unchanged and issues no command. -/
theorem claim2_no_refresh_on_absent (st : Store) (m : MW) (e : String)
    (so : StepOutcome)
    (hp : m.isPlaying = true)
    (hsel : m.selectedExpId = some e)
    (htgt : ∀ tgt, m.targetTick = some tgt → m.currentDisplayTick < tgt)
    (habs : get_frame st e (m.currentDisplayTick + 1) = none) :
    (onPlaybackTick so st m).2.1.isPlaying = true ∧
    Cmd.refreshHistory e ∉ (onPlaybackTick so st m).2.2 ∧
    (if (!m.isOfflineMode && is_latest_tick st e m.currentDisplayTick) = true
     then (onPlaybackTick so st m).2.2 = [Cmd.atomicStep e]
     else (onPlaybackTick so st m).2.2 = [] ∧
       (onPlaybackTick so st m).2.1.currentDisplayTick =
         m.currentDisplayTick) := by
  have hred := onPlaybackTick_eq_step so st m hp htgt
  rw [hred]
  refine ⟨?_, ?_, ?_⟩
  · rw [executeStepForward_isPlaying]; exact hp
  · rcases executeStepForward_cmds so st m with hc | ⟨e0, _, hc⟩ <;>
      rw [hc] <;> simp
  · by_cases hcond :
        (!m.isOfflineMode && is_latest_tick st e m.currentDisplayTick) = true
    · rw [if_pos hcond]
      cases so <;> simp [executeStepForward, hsel, hcond]
    · rw [if_neg hcond]
      rw [Bool.not_eq_true] at hcond
      constructor
      · simp [executeStepForward, hsel, hcond]
      · simp [executeStepForward, hsel, hcond, setAndDisplayTick, habs]

/-- C2 (witness): with the single cached frame 0, session selected and
playing with no target, a timer fire whose atomic step fails issues
exactly the `AtomicStep` command (the live-at-latest case) and keeps the
timer running. -/
theorem claim2_witness :
    (onPlaybackTick .fail stOne mwOne).2.1.isPlaying = true ∧
    Cmd.refreshHistory "e" ∉ (onPlaybackTick .fail stOne mwOne).2.2 ∧
    (if (!mwOne.isOfflineMode &&
          is_latest_tick stOne "e" mwOne.currentDisplayTick) = true
     then (onPlaybackTick .fail stOne mwOne).2.2 = [Cmd.atomicStep "e"]
     else (onPlaybackTick .fail stOne mwOne).2.2 = [] ∧
       (onPlaybackTick .fail stOne mwOne).2.1.currentDisplayTick =
         mwOne.currentDisplayTick) :=
  claim2_no_refresh_on_absent stOne mwOne "e" .fail rfl rfl
    (fun _ h => Option.noConfusion h) rfl

/-- C2 (counterexample): with frames cached at ticks 0..3, playing with
no target and displaying tick 3, the next timer fire (tick 4 absent)
issues an `AtomicStep` command — not `RefreshHistory` — and leaves the
timer running, contradicting the claim that the controller stops the
timer, transitions to Buffering, and issues `RefreshHistory`. -/
theorem claim2_counterexample :
    (onPlaybackTick .fail stPlay mwPlay).2.2 = [Cmd.atomicStep "e"] ∧
    (onPlaybackTick .fail stPlay mwPlay).2.1.isPlaying = true ∧
    Cmd.refreshHistory "e" ∉ (onPlaybackTick .fail stPlay mwPlay).2.2 :=
  ⟨rfl, rfl, by decide⟩

/-- C3 (amended): when an `AtomicStep` command's result reports
failure, the worker emits only the `step_failed` signal (so no frame is
displayed for the attempted tick), but `MainWindow.__init__` connects
no slot to `step_failed`, and the playback transition that issued the
step leaves the window state — including `is_playing` — unchanged: the
Playback Controller is NOT forced to `Paused`, and the still-running
timer retries the step on its next fire. -/
theorem claim3_step_failure_unhandled (st : Store) (m : MW) (e : String)
    (env : WEnv) (ws : WState)
    (hsel : m.selectedExpId = some e) (hoff : m.isOfflineMode = false)
    (hlat : is_latest_tick st e m.currentDisplayTick = true)
    (hc : ws.hasController = true) (hof : ws.ctrlOffline = false)
    (hstep : env.stepOk = false) :
    (processCommand env ws .atomicStep).2 = [(WEv.stepFailed, true)] ∧
    executeStepForward .fail st m = (st, m, [Cmd.atomicStep e]) ∧
    "step_failed" ∉ connectedWorkerSignals := by
  refine ⟨?_, ?_, ?_⟩
  · simp [processCommand, hc, hof, hstep]
  · simp [executeStepForward, hsel, hoff, hlat]
  · decide

/-- C3 (witness): a failing atomic step on the session with frames 0..3
displaying tick 3. -/
theorem claim3_witness :
    (processCommand envStepFail wsLive .atomicStep).2 =
      [(WEv.stepFailed, true)] ∧
    executeStepForward .fail stPlay mwPlay =
      (stPlay, mwPlay, [Cmd.atomicStep "e"]) ∧
    "step_failed" ∉ connectedWorkerSignals :=
  claim3_step_failure_unhandled stPlay mwPlay "e" envStepFail wsLive
    rfl rfl rfl rfl rfl rfl

/-- C3 (counterexample): on a failed `AtomicStep` the worker emits
`step_failed` and no frame event, but the playing window state is left
completely unchanged — `is_playing` stays true — contradicting the
claim that the Playback Controller transitions to `Paused` with
auto-play forced off. -/
theorem claim3_counterexample :
    (processCommand envStepFail wsLive .atomicStep).2 =
      [(WEv.stepFailed, true)] ∧
    (onPlaybackTick .fail stPlay mwPlay).2.1 = mwPlay ∧
    mwPlay.isPlaying = true ∧
    "step_failed" ∉ connectedWorkerSignals :=
  ⟨rfl, rfl, rfl, by decide⟩

/-- C9 (amended): `play_until_specified` with a target greater than the
current display tick sets `target_tick` to the target and starts
playback, but issues no `ExecuteRun` command whatsoever — advancement
beyond the cached history happens only through the per-tick
`AtomicStep` commands enqueued by the playback timer. -/
theorem claim9_play_until (st : Store) (m : MW) (target : Int)
    (so : StepOutcome) (h : m.currentDisplayTick < target) :
    (playUntilSpecified target so st m).2.1.targetTick = some target ∧
    (playUntilSpecified target so st m).2.1.isPlaying = true ∧
    ∀ x, Cmd.executeRun x ∉ (playUntilSpecified target so st m).2.2 := by
  by_cases hp : m.isPlaying = false
  · have e1 : playUntilSpecified target so st m =
        onPlayPauseToggled true so st ({ m with targetTick := some target }) := by
      simp [playUntilSpecified, h, hp]
    rcases onPlayPauseToggled_true_props so st
        ({ m with targetTick := some target })
        (fun tgt hh => Option.some.inj hh ▸ h) with ⟨h1, h2, h3⟩
    rw [e1]
    exact ⟨h1, h2, h3⟩
  · have e1 : playUntilSpecified target so st m =
        (st, ({ m with targetTick := some target }), []) := by
      simp [playUntilSpecified, h, hp]
    rw [e1]
    refine ⟨rfl, ?_, by intro x; simp⟩
    show m.isPlaying = true
    cases hb : m.isPlaying
    · exact absurd hb hp
    · rfl

/-- C9 (witness): `play_until_specified(10)` from display tick 4. -/
theorem claim9_witness :
    (playUntilSpecified 10 .fail stRun mwRun).2.1.targetTick = some 10 ∧
    (playUntilSpecified 10 .fail stRun mwRun).2.1.isPlaying = true ∧
    ∀ x, Cmd.executeRun x ∉ (playUntilSpecified 10 .fail stRun mwRun).2.2 :=
  claim9_play_until stRun mwRun 10 .fail (by decide)

/-- C9 (counterexample): with server/cached max tick 4 and session
selected, `play_until_specified(10)` sets `target_tick = 10` but issues
only an `AtomicStep` command — no `ExecuteRun` — contradicting the
claim that exactly one `ExecuteRun` command for 6 ticks is issued. -/
theorem claim9_counterexample :
    (playUntilSpecified 10 .fail stRun mwRun).2.1.targetTick = some 10 ∧
    (playUntilSpecified 10 .fail stRun mwRun).2.2 = [Cmd.atomicStep "e"] ∧
    Cmd.executeRun "e" ∉ (playUntilSpecified 10 .fail stRun mwRun).2.2 :=
  ⟨rfl, rfl, by decide⟩

theorem loadFrames_wf (dec : String → Option JVal) (e : String) :
    ∀ (recs : List JVal) (st : Store),
      (∀ r ∈ recs, wfFrameRec dec r = true) →
      (loadFrames dec e recs st).2 = none := by
  intro recs
  induction recs with
  | nil => intro st _; rfl
  | cons f rest ih =>
      intro st hwf
      have hf := hwf f (List.mem_cons_self _ _)
      cases f with
      | null => simp [wfFrameRec] at hf
      | bool b => simp [wfFrameRec] at hf
      | num n => simp [wfFrameRec] at hf
      | str s => simp [wfFrameRec] at hf
      | arr xs => simp [wfFrameRec] at hf
      | obj gfs =>
          simp only [wfFrameRec, Bool.and_eq_true] at hf
          obtain ⟨h1, h2⟩ := hf
          cases htick : jGetD gfs "tick" (.num 0) with
          | num n =>
              cases hev : parse_events dec (jGetD gfs "events" (.arr [])) with
              | ok l =>
                  simp only [loadFrames, htick, hev]
                  exact ih _ (fun r hr => hwf r (List.mem_cons_of_mem _ hr))
              | error err => rw [hev] at h2; simp at h2
          | null => rw [htick] at h1; simp at h1
          | bool b => rw [htick] at h1; simp at h1
          | str s => rw [htick] at h1; simp at h1
          | arr xs => rw [htick] at h1; simp at h1
          | obj fs2 => rw [htick] at h1; simp at h1

/-- C8 (amended): loading a replay file is all-or-nothing for header
failures — an unreadable or unparseable file, and a missing or falsy
`metadata.experimentId`, abort the load with the controller state
untouched — and a file whose metadata contains only `experimentId`
loads successfully; but a malformed frame record raises after the store
has been cleared and the new session begun, leaving a partially filled
session in the frame store (see the counterexample). -/
theorem claim8_load_semantics :
    (∀ (dec : String → Option JVal) (c : CtrlState),
      load_from_file dec c none = (.error .attributeError, c)) ∧
    (∀ (dec : String → Option JVal) (c : CtrlState) fs ms,
      jGetD fs "metadata" (.obj []) = .obj ms →
      pyTruthy (jGetD ms "experimentId" .null) = false →
      load_from_file dec c (some (.obj fs)) = (.ok none, c)) ∧
    (∀ (dec : String → Option JVal) (c : CtrlState) (eid : String)
        (recs : List JVal), eid ≠ "" →
      (∀ r ∈ recs, wfFrameRec dec r = true) →
      (load_from_file dec c (some (.obj
          [("metadata", .obj [("experimentId", .str eid)]),
           ("frames", .arr recs)]))).1 =
        .ok (some (eid, .str "loaded-replay")) ∧
      (load_from_file dec c (some (.obj
          [("metadata", .obj [("experimentId", .str eid)]),
           ("frames", .arr recs)]))).2.isOffline = true) := by
  refine ⟨fun dec c => rfl, ?_, ?_⟩
  · intro dec c fs ms hm hid
    simp [load_from_file, hm, hid]
  · intro dec c eid recs heid hwf
    have hnone := loadFrames_wf dec eid recs [(eid, [])] hwf
    rcases hlf : loadFrames dec eid recs [(eid, [])] with ⟨st1, oerr⟩
    rw [hlf] at hnone
    simp only at hnone
    subst hnone
    constructor <;>
      simp [load_from_file, jGetD, jLookup, pyTruthy, heid, pyIter, hlf]

/-- C8 (witness): a file whose metadata contains only `experimentId`
and whose frames are well-formed loads successfully and switches the
controller offline. -/
theorem claim8_witness :
    (load_from_file (fun _ => none) ctrlPrev (some (.obj
        [("metadata", .obj [("experimentId", .str "e")]),
         ("frames", .arr okRecs)]))).1 =
      .ok (some ("e", .str "loaded-replay")) ∧
    (load_from_file (fun _ => none) ctrlPrev (some (.obj
        [("metadata", .obj [("experimentId", .str "e")]),
         ("frames", .arr okRecs)]))).2.isOffline = true :=
  claim8_load_semantics.2.2 (fun _ => none) ctrlPrev "e" okRecs
    (by decide)
    (by
      intro r hr
      simp only [okRecs, List.mem_cons, List.not_mem_nil, or_false] at hr
      rcases hr with rfl | rfl <;> rfl)

/-- C8 (counterexample): loading a file with a valid header whose
second frame record is the number 42 fails with `AttributeError`
mid-loop, yet leaves a partially created session `"e"` holding the
first frame (and the previously cached session destroyed) —
contradicting the claim that a failed load creates no partial session
in the frame store. -/
theorem claim8_counterexample :
    (load_from_file (fun _ => none) ctrlPrev (some docBadFrame)).1 =
      .error .attributeError ∧
    storeFind (load_from_file (fun _ => none) ctrlPrev
        (some docBadFrame)).2.store "e" = some [0] ∧
    storeFind (load_from_file (fun _ => none) ctrlPrev
        (some docBadFrame)).2.store "old" = none :=
  ⟨rfl, rfl, rfl⟩

end Hidra
